import Mathlib

/-!
Verification of the Carbon Black / ATP sigma backend
(`tools/sigma/backends/carbonblack.py`, class `CarbonBlackResponseBackend`).

The backend subclasses `SingleTextQueryBackend`; only the subclass is in
scope here, so the handful of parent-class behaviours that the claims touch
(`cleanValue`, the generic leaf renderer, the OR-node renderer, the
post-render validator, the path normalizer) are modelled from the spec and
marked as such in their doc comments.  Everything else is translated
directly from the Python source.
-/

namespace CarbonBlack

/-- A scalar sigma value occurring in a map item: a Python `str` or `int`.
Python distinguishes the two by dynamic type (`value == 1` is false for the
string `"1"`), which the constructors keep separate. -/
inductive MVal where
  | str (s : String)
  | int (n : Int)
  deriving DecidableEq

/-- The value slot of a map-item node: a single scalar, or a Python list of
scalars (the shape `generateMapItemNode` tests with `type(value) == list`). -/
inductive MapValue where
  | single (v : MVal)
  | list (vs : List MVal)
  deriving DecidableEq

/-- One entry of `self.fieldMappings`.  In the source every entry is either a
one-element tuple holding a replacement string, or a two-element tuple whose
second component is always `self.default_value_mapping`; `pair target`
records such a two-element entry by its first component. -/
inductive FieldMapping where
  | single (s : String)
  | pair (target : String)
  deriving DecidableEq

/-- The per-translation mutable state stored on the backend instance:
`self.category`, `self.product`, `self.service` (from the rule's logsource)
and `self.table` (set by the EventID table-selection logic). -/
structure Ctx where
  category : Option String
  product : Option String
  service : Option String
  table : Option String
  deriving DecidableEq

/-- The `logsource` mapping of a parsed rule; each key may be absent. -/
structure Logsource where
  category : Option String
  product : Option String
  service : Option String
  deriving DecidableEq

/-- An aggregation clause of a parsed rule (shape irrelevant to the backend,
which ignores it entirely). -/
structure Aggregation where
  aggfunc : Option String
  aggfield : Option String
  groupfield : Option String
  deriving DecidableEq

/-- The typed failures the translation can raise.  `unsupportedField` is the
`NotSupportedError` raised for an unmapped field (the spec's
`UnsupportedFieldError`); the other constructors cover the spec's
`UnsupportedFeatureError` and `UnsupportedSyntaxError`, and `typeError`
models a Python `TypeError`. -/
inductive BackendError where
  | unsupportedField (msg : String)
  | unsupportedFeature (msg : String)
  | unsupportedSyntax (msg : String)
  | typeError (msg : String)
  deriving DecidableEq

/-- `andToken = " "` -/
def andToken : String := " "

/-- `orToken = " OR "` -/
def orToken : String := " OR "

/-- `notToken = "NOT "` -/
def notToken : String := "NOT "

/-- `subExpression = "(%s)"` -/
def subExpression (s : String) : String := "(" ++ s ++ ")"

/-- `valueExpression = "\"%s\""` -/
def valueExpression (s : String) : String := "\"" ++ s ++ "\""

/-- `nullExpression = "NOT %s=\"*\""` -/
def nullExpression (f : String) : String := "NOT " ++ f ++ "=\"*\""

/-- `notNullExpression = "%s=\"*\""` -/
def notNullExpression (f : String) : String := f ++ "=\"*\""

/-- `mapExpression = "%s:%s"` -/
def mapExpression (f v : String) : String := f ++ ":" ++ v

/-- Python `str()` of a scalar value. -/
def mvalStr : MVal → String
  | .str s => s
  | .int n => toString n

/-- The substitution performed by `reEscape = re.compile('(")')`: every
double quote gets a backslash prefixed; all other characters pass through. -/
def escapeQuotes (s : String) : String :=
  String.mk ((s.data.map (fun c => if c = '"' then ['\\', c] else [c])).flatten)

/-- Modelled from the spec: the parent renderer's value cleaning
("characters requiring escape are escaped via a fixed substitution rule",
§4.2) — the escape set comes from this backend's `reEscape`, which matches
only the double quote, and `reClear` is `None`, so nothing is removed. -/
def cleanValue (s : String) : String := escapeQuotes s

/-- `default_value_mapping`: `op = ":"`, then
`"%s\"%s\"" % (op, self.cleanValue(val))`. -/
def default_value_mapping (v : MVal) : String :=
  ":" ++ "\"" ++ cleanValue (mvalStr v) ++ "\""

/-- `self.fieldMappings` as initialised in `__init__`, in source order. -/
def fieldMappings : List (String × FieldMapping) :=
  [ ("AccountName", .pair "username"),
    ("Command", .pair "cmdline"),
    ("CommandLine", .pair "cmdline"),
    ("Company", .pair "company_name"),
    ("ComputerName", .pair "hostname"),
    ("DestinationHostname", .pair "domain"),
    ("DestinationIp", .pair "ipaddr"),
    ("DestinationIsIpv6", .single "ipv6addr:*"),
    ("DestinationPort", .pair "ipport"),
    ("EventType", .pair "ActionType"),
    ("Image", .pair "process_name"),
    ("ImageLoaded", .pair "modload"),
    ("Imphash", .pair "md5"),
    ("NewProcessName", .pair "process_name"),
    ("OriginalFilename", .pair "internal_name"),
    ("OriginalFileName", .pair "internal_name"),
    ("ParentImage", .pair "parent_name"),
    ("ProcessCommandLine", .pair "cmdline"),
    ("Product", .pair "product_name"),
    ("SourceImage", .pair "parent_name"),
    ("TargetFilename", .pair "filemod"),
    ("TargetImage", .pair "childproc_name"),
    ("TargetObject", .pair "regmod"),
    ("User", .pair "username") ]

/-- Modelled from the spec: the parent class's generic leaf rendering
("Leaf rendering delegates to 4.1 then 4.2, then substitutes into a
`field:value` template", §4.3), instantiated with this backend's
`mapExpression` and `valueExpression` templates; the parent's field-name
mapping is the identity for fields the subclass does not map. -/
def superGenerateMapItemNode (key : String) (v : MVal) : String :=
  mapExpression key (valueExpression (cleanValue (mvalStr v)))

/-- The `elif key == "EventID"` table-selection chain of
`generateMapItemNode` (lines 115–139): given `self.product`, `self.service`
and the value, returns the table to select together with the optional
condition string the branch returns, or `none` when no case matches and
control falls through to the parent renderer. -/
def eventIDTableSelection (product service : Option String) (v : MVal) :
    Option (String × Option String) :=
  if product = some "windows" then
    if service = some "sysmon" ∧ v = .int 1 ∨
       service = some "security" ∧ v = .int 4688 then
      some ("ProcessCreationEvents", none)
    else if service = some "sysmon" ∧ v = .int 3 then
      some ("NetworkCommunicationEvents", none)
    else if service = some "sysmon" ∧ v = .int 7 then
      some ("ImageLoadEvents", none)
    else if service = some "sysmon" ∧ v = .int 8 then
      some ("MiscEvents", some "ActionType == \"CreateRemoteThreadApiCall\"")
    else if service = some "sysmon" ∧ v = .int 11 then
      some ("FileCreationEvents", none)
    else if service = some "sysmon" ∧ v = .int 13 ∨
            service = some "security" ∧ v = .int 4657 then
      some ("RegistryEvents", some "ActionType == \"RegistryValueSet\"")
    else if service = some "security" ∧ v = .int 4624 then
      some ("LogonEvents", none)
    else none
  else none

/-- The body of `generateMapItemNode` for a non-list value (lines 115–167):
the EventID table-selection branch, then the default `str`/`int` processing
against `fieldMappings`, and finally the fall-through to
`super().generateMapItemNode(node)`.  The result pairs the updated state
with the Python return value (`none` models Python `None`). -/
def genLeaf (fm : List (String × FieldMapping)) (ctx : Ctx)
    (key : String) (v : MVal) : Except BackendError (Ctx × Option String) :=
  if key = "EventID" then
    match eventIDTableSelection ctx.product ctx.service v with
    | some (t, cond) => .ok ({ ctx with table := some t }, cond)
    | none => .ok (ctx, some (superGenerateMapItemNode key v))
  else
    match fm.lookup key with
    | none => .error (.unsupportedField ("No mapping defined for field '" ++ key ++ "'"))
    | some (.single s) => .ok (ctx, some s)
    | some (.pair target) => .ok (ctx, some (target ++ default_value_mapping v))

/-- Renders a list of single-value map items left to right, threading the
backend state (Python evaluates the comprehension's nodes in order). -/
def renderLeaves (fm : List (String × FieldMapping)) (ctx : Ctx) :
    List (String × MVal) → Except BackendError (Ctx × List (Option String))
  | [] => .ok (ctx, [])
  | (k, v) :: rest =>
    match genLeaf fm ctx k v with
    | .error e => .error e
    | .ok (ctx', r) =>
      match renderLeaves fm ctx' rest with
      | .error e => .error e
      | .ok (ctx'', rs) => .ok (ctx'', r :: rs)

/-- Collects rendered children for a join; a Python `None` among them makes
`str.join` raise `TypeError`, which `none` here signals. -/
def joinConds : List (Option String) → Option (List String)
  | [] => some []
  | some s :: rest => (joinConds rest).map (fun ss => s :: ss)
  | none :: _ => none

/-- Modelled from the spec: the parent class's OR-node renderer
("children joined by `\" OR \"`", §4.3), with `orToken` taken from this
backend; its children here are always the single-value map items built by
the list branch of `generateMapItemNode`. -/
def generateORNode (fm : List (String × FieldMapping)) (ctx : Ctx)
    (leaves : List (String × MVal)) : Except BackendError (Ctx × String) :=
  match renderLeaves fm ctx leaves with
  | .error e => .error e
  | .ok (ctx', rs) =>
    match joinConds rs with
    | some ss => .ok (ctx', String.intercalate orToken ss)
    | none => .error (.typeError "sequence item: expected str instance, NoneType found")

/-- `generateMapItemNode` (lines 105–167): a list value is rewritten as an
OR node over single-value leaves; a scalar value goes through `genLeaf`. -/
def generateMapItemNode (fm : List (String × FieldMapping)) (ctx : Ctx)
    (node : String × MapValue) : Except BackendError (Ctx × Option String) :=
  match node with
  | (key, .list vs) =>
    match generateORNode fm ctx (vs.map (fun v => (key, v))) with
    | .error e => .error e
    | .ok (ctx', s) => .ok (ctx', some s)
  | (key, .single v) => genLeaf fm ctx key v

/-- `generateAggregation(self, agg): pass` — returns Python `None` for every
aggregation clause. -/
def generateAggregation (_agg : Aggregation) : Option String := none

/-- Lines 86–95 of `generate`: `self.table = None`, then the three logsource
keys are re-read via `setdefault(..., None)` inside a `try`, with a missing
`logsource` mapping (`KeyError`) setting all three to `None`.  `old` is the
instance state left over from any previous call. -/
def extractContext (old : Ctx) (parsedyaml : Option Logsource) : Ctx :=
  let s := { old with table := none }
  match parsedyaml with
  | some ls => { s with category := ls.category, product := ls.product, service := ls.service }
  | none => { s with category := none, product := none, service := none }

/-- Modelled from the spec: the Constraint Validator (§4.4) — "scans the
fully rendered string for characters the target syntax forbids (e.g., `<`,
`>`); if any are found, fails with `UnsupportedSyntaxError`". -/
def validateQuery (q : String) : Except BackendError String :=
  if q.data.any (fun c => c == '<' || c == '>') then
    .error (.unsupportedSyntax "query contains a character the target syntax cannot express")
  else .ok q

/-- Number of path separators (backslashes) in a value. -/
def countPathSeps (s : String) : Nat := s.data.count '\\'

/-- Modelled from the spec: the Value Normalizer's path handling (§4.2) —
a value matching "wildcard + single path separator + name" is collapsed to
the bare name, and a value with more than one path separator is rejected
with `UnsupportedFeatureError` unless the field is flagged as supporting
full paths. -/
def normalizePathValue (fullPathField : Bool) (v : String) :
    Except BackendError String :=
  if 2 ≤ countPathSeps v then
    if fullPathField then .ok v
    else .error (.unsupportedFeature "full path values are not supported for this field")
  else if v.startsWith "*\\" ∧ countPathSeps v = 1 then .ok (v.drop 2)
  else .ok v

theorem lookup_eventID_none : fieldMappings.lookup "EventID" = none := by decide

theorem mem_of_lookup_eq_some {α β : Type} [BEq α] [LawfulBEq α]
    {l : List (α × β)} {k : α} {b : β} (h : l.lookup k = some b) : (k, b) ∈ l := by
  induction l with
  | nil => simp [List.lookup] at h
  | cons p rest ih =>
    obtain ⟨a, c⟩ := p
    simp only [List.lookup] at h
    by_cases hk : k == a
    · simp only [hk] at h
      obtain rfl : c = b := by simpa using h
      obtain rfl : k = a := eq_of_beq hk
      exact List.mem_cons_self _ _
    · simp only [Bool.not_eq_true] at hk
      simp only [hk] at h
      exact List.mem_cons_of_mem _ (ih h)

theorem genLeaf_pair (ctx : Ctx) {key target : String} (v : MVal)
    (h : fieldMappings.lookup key = some (.pair target)) :
    genLeaf fieldMappings ctx key v =
      .ok (ctx, some (target ++ default_value_mapping v)) := by
  have hne : key ≠ "EventID" := by
    intro he; rw [he, lookup_eventID_none] at h; exact Option.noConfusion h
  simp [genLeaf, hne, h]

theorem renderLeaves_pair (ctx : Ctx) {key target : String}
    (h : fieldMappings.lookup key = some (.pair target)) (vs : List MVal) :
    renderLeaves fieldMappings ctx (vs.map (fun v => (key, v))) =
      .ok (ctx, vs.map (fun v => some (target ++ default_value_mapping v))) := by
  induction vs with
  | nil => rfl
  | cons v rest ih =>
    simp only [List.map_cons, renderLeaves, genLeaf_pair ctx v h, ih]

theorem joinConds_map_some (ss : List String) : joinConds (ss.map some) = some ss := by
  induction ss with
  | nil => rfl
  | cons s rest ih => simp [joinConds, ih]

/-- C1: for every generic field with a two-element `(targetField,
default_value_mapping)` entry in the field mapping table, a single
field/value condition renders to exactly the target field name followed by
`:` followed by the double-quoted cleaned value, and the generic field name
does not occur inside the target field name (it is replaced, not echoed). -/
theorem mapped_field_renders_target_and_quoted_value
    (ctx : Ctx) (key target : String) (v : MVal)
    (h : fieldMappings.lookup key = some (.pair target)) :
    generateMapItemNode fieldMappings ctx (key, .single v) =
      .ok (ctx, some (target ++ ":" ++ "\"" ++ cleanValue (mvalStr v) ++ "\"")) ∧
    ¬ key.data <:+: target.data := by
  constructor
  · have hg := genLeaf_pair ctx v h
    simp [generateMapItemNode, hg, default_value_mapping, String.append_assoc]
  · have hmem : (key, FieldMapping.pair target) ∈ fieldMappings := mem_of_lookup_eq_some h
    have hall : fieldMappings.all (fun p => match p.2 with
        | .pair t => ! (decide (p.1.data <:+: t.data))
        | _ => true) = true := by decide
    have h2 := List.all_eq_true.mp hall _ hmem
    simpa using h2

/-- C1 witness: the mapped field `CommandLine` at a concrete value. -/
theorem mapped_field_renders_target_and_quoted_value_witness :
    generateMapItemNode fieldMappings ⟨none, none, none, none⟩
        ("CommandLine", .single (.str "whoami")) =
      .ok (⟨none, none, none, none⟩,
        some ("cmdline" ++ ":" ++ "\"" ++ cleanValue (mvalStr (.str "whoami")) ++ "\"")) ∧
    ¬ "CommandLine".data <:+: "cmdline".data :=
  mapped_field_renders_target_and_quoted_value ⟨none, none, none, none⟩
    "CommandLine" "cmdline" (.str "whoami") (by decide)

/-- C2: a scalar condition on a field other than `EventID` with no entry in
the field mapping table fails with the unsupported-field error (the code's
`NotSupportedError`) carrying the exact message built from the field name;
no other error kind and no partial query string is produced. -/
theorem unmapped_field_raises_unsupported_field
    (ctx : Ctx) (key : String) (v : MVal)
    (hne : key ≠ "EventID") (h : fieldMappings.lookup key = none) :
    generateMapItemNode fieldMappings ctx (key, .single v) =
      .error (.unsupportedField ("No mapping defined for field '" ++ key ++ "'")) := by
  simp [generateMapItemNode, genLeaf, hne, h]

/-- C2 witness: the unmapped field `Hashes`. -/
theorem unmapped_field_raises_unsupported_field_witness :
    generateMapItemNode fieldMappings ⟨none, none, none, none⟩
        ("Hashes", .single (.str "x")) =
      .error (.unsupportedField ("No mapping defined for field '" ++ "Hashes" ++ "'")) :=
  unmapped_field_raises_unsupported_field ⟨none, none, none, none⟩
    "Hashes" (.str "x") (by decide) (by decide)

/-- C3: a list-valued leaf `(F, [v1, ..., vn])` renders exactly as the OR
node over the single-value leaves `(F, v1), ..., (F, vn)`; in particular,
for a pair-mapped field the result is the per-value renderings, each value
independently normalized, joined by the `" OR "` token. -/
theorem list_value_renders_as_or_node (ctx : Ctx) (key : String) (vs : List MVal) :
    generateMapItemNode fieldMappings ctx (key, .list vs) =
      (match generateORNode fieldMappings ctx (vs.map (fun v => (key, v))) with
       | .error e => .error e
       | .ok (ctx', s) => .ok (ctx', some s)) ∧
    ∀ target, fieldMappings.lookup key = some (.pair target) →
      generateMapItemNode fieldMappings ctx (key, .list vs) =
        .ok (ctx, some (String.intercalate orToken
          (vs.map (fun v => target ++ default_value_mapping v)))) := by
  refine ⟨rfl, ?_⟩
  intro target h
  have hj : joinConds (vs.map (fun v => some (target ++ default_value_mapping v))) =
      some (vs.map (fun v => target ++ default_value_mapping v)) := by
    have hm : vs.map (fun v => some (target ++ default_value_mapping v)) =
        (vs.map (fun v => target ++ default_value_mapping v)).map some := by
      simp
    rw [hm]
    exact joinConds_map_some _
  have hor : generateORNode fieldMappings ctx (vs.map (fun v => (key, v))) =
      .ok (ctx, String.intercalate orToken
        (vs.map (fun v => target ++ default_value_mapping v))) := by
    simp [generateORNode, renderLeaves_pair ctx h vs, hj]
  simp [generateMapItemNode, hor]

/-- C3 witness: the list `["alice", "bob"]` on the mapped field `User`. -/
theorem list_value_renders_as_or_node_witness :
    generateMapItemNode fieldMappings ⟨none, none, none, none⟩
        ("User", .list [.str "alice", .str "bob"]) =
      .ok (⟨none, none, none, none⟩, some (String.intercalate orToken
        ([MVal.str "alice", MVal.str "bob"].map
          (fun v => "username" ++ default_value_mapping v)))) :=
  (list_value_renders_as_or_node ⟨none, none, none, none⟩ "User"
    [.str "alice", .str "bob"]).2 "username" (by decide)

/-- C4 counterexample: at the concrete field `process_name`, the
field-existence template yields `process_name="*"`, not `process_name:*`,
and the absence template yields `NOT process_name="*"`, not
`-process_name:*`, refuting the claimed template texts. -/
theorem null_templates_counterexample :
    ¬ (notNullExpression "process_name" = "process_name:*" ∧
       nullExpression "process_name" = "-process_name:*") := by decide

/-- C4 (amended): the field-existence (not-null) test is rendered through
the dedicated template `%s="*"` and the field-absence (null) test through
the dedicated template `NOT %s="*"`, i.e. the null test is the `NOT`-token
prefix of the not-null test; neither goes through the generic
`field:"value"` equality rendering. -/
theorem null_templates_amended (f : String) :
    notNullExpression f = f ++ "=\"*\"" ∧
    nullExpression f = "NOT " ++ notNullExpression f ∧
    notNullExpression f ≠ mapExpression f (valueExpression "*") := by
  refine ⟨rfl, ?_, ?_⟩
  · simp [nullExpression, notNullExpression, String.append_assoc]
  · intro hcontra
    have h1 : f ++ "=\"*\"" = f ++ (":" ++ "\"*\"") := by
      simpa [notNullExpression, mapExpression, valueExpression,
        String.append_assoc] using hcontra
    have h2 : ("=\"*\"" : String).data = (":" ++ "\"*\"" : String).data := by
      have h3 := congrArg String.data h1
      simp only [String.data_append] at h3
      exact List.append_cancel_left h3
    exact absurd h2 (by decide)

/-- C5: with product `windows`, a scalar `EventID` condition for each listed
(service, value) pair sets the translation's table to the corresponding
target table and contributes no condition text, except sysmon event 8 and
the registry-set pairs sysmon 13 / security 4657, which contribute the fixed
`ActionType` equality strings. -/
theorem eventid_selects_table (ctx : Ctx) (hw : ctx.product = some "windows") :
    (ctx.service = some "sysmon" →
      generateMapItemNode fieldMappings ctx ("EventID", .single (.int 1)) =
        .ok ({ ctx with table := some "ProcessCreationEvents" }, none) ∧
      generateMapItemNode fieldMappings ctx ("EventID", .single (.int 3)) =
        .ok ({ ctx with table := some "NetworkCommunicationEvents" }, none) ∧
      generateMapItemNode fieldMappings ctx ("EventID", .single (.int 7)) =
        .ok ({ ctx with table := some "ImageLoadEvents" }, none) ∧
      generateMapItemNode fieldMappings ctx ("EventID", .single (.int 8)) =
        .ok ({ ctx with table := some "MiscEvents" },
          some "ActionType == \"CreateRemoteThreadApiCall\"") ∧
      generateMapItemNode fieldMappings ctx ("EventID", .single (.int 11)) =
        .ok ({ ctx with table := some "FileCreationEvents" }, none) ∧
      generateMapItemNode fieldMappings ctx ("EventID", .single (.int 13)) =
        .ok ({ ctx with table := some "RegistryEvents" },
          some "ActionType == \"RegistryValueSet\"")) ∧
    (ctx.service = some "security" →
      generateMapItemNode fieldMappings ctx ("EventID", .single (.int 4688)) =
        .ok ({ ctx with table := some "ProcessCreationEvents" }, none) ∧
      generateMapItemNode fieldMappings ctx ("EventID", .single (.int 4657)) =
        .ok ({ ctx with table := some "RegistryEvents" },
          some "ActionType == \"RegistryValueSet\"") ∧
      generateMapItemNode fieldMappings ctx ("EventID", .single (.int 4624)) =
        .ok ({ ctx with table := some "LogonEvents" }, none)) := by
  constructor
  · intro hs
    refine ⟨?_, ?_, ?_, ?_, ?_, ?_⟩ <;>
      simp [generateMapItemNode, genLeaf, eventIDTableSelection, hw, hs]
  · intro hs
    refine ⟨?_, ?_, ?_⟩ <;>
      simp [generateMapItemNode, genLeaf, eventIDTableSelection, hw, hs]

/-- C5 witness: sysmon event 1 on a windows rule selects
`ProcessCreationEvents` and contributes no condition. -/
theorem eventid_selects_table_witness :
    generateMapItemNode fieldMappings ⟨none, some "windows", some "sysmon", none⟩
        ("EventID", .single (.int 1)) =
      .ok (⟨none, some "windows", some "sysmon", some "ProcessCreationEvents"⟩, none) :=
  ((eventid_selects_table ⟨none, some "windows", some "sysmon", none⟩ rfl).1 rfl).1

/-- C6: a fully rendered query containing `<` anywhere fails validation with
the unsupported-syntax error, so no query string is returned. -/
theorem forbidden_char_raises_unsupported_syntax (q : String) (h : '<' ∈ q.data) :
    validateQuery q =
      .error (.unsupportedSyntax
        "query contains a character the target syntax cannot express") := by
  have ha : q.data.any (fun c => c == '<' || c == '>') = true :=
    List.any_eq_true.mpr ⟨'<', h, by decide⟩
  simp [validateQuery, ha]

/-- C6 witness: a query with a `<` character. -/
theorem forbidden_char_raises_unsupported_syntax_witness :
    validateQuery "ipport:<1024" =
      .error (.unsupportedSyntax
        "query contains a character the target syntax cannot express") :=
  forbidden_char_raises_unsupported_syntax "ipport:<1024" (by decide)

/-- C7: a value with two or more path separators on a field not flagged as
supporting full paths is rejected with the unsupported-feature error. -/
theorem multi_separator_path_rejected (v : String) (h : 2 ≤ countPathSeps v) :
    normalizePathValue false v =
      .error (.unsupportedFeature
        "full path values are not supported for this field") := by
  simp [normalizePathValue, h]

/-- C7 witness: a three-separator path value. -/
theorem multi_separator_path_rejected_witness :
    normalizePathValue false "*\\Windows\\System32\\cmd.exe" =
      .error (.unsupportedFeature
        "full path values are not supported for this field") :=
  multi_separator_path_rejected "*\\Windows\\System32\\cmd.exe" (by decide)

/-- C8: at the start of each `generate` call, the rule context is re-read
from the current rule's logsource and the table is reset: the result never
depends on the state left by a previous translation, the table starts as
`none`, an entirely missing logsource sets every field to `none` without
error, and present logsource keys are copied through (absent keys staying
`none`). -/
theorem context_reset_each_generate (old old' : Ctx) (parsedyaml : Option Logsource) :
    extractContext old parsedyaml = extractContext old' parsedyaml ∧
    (extractContext old parsedyaml).table = none ∧
    extractContext old none = ⟨none, none, none, none⟩ ∧
    ∀ ls, parsedyaml = some ls →
      extractContext old parsedyaml = ⟨ls.category, ls.product, ls.service, none⟩ := by
  refine ⟨?_, ?_, rfl, ?_⟩
  · cases parsedyaml <;> rfl
  · cases parsedyaml <;> rfl
  · rintro ls rfl
    rfl

/-- C8 witness: stale state from a previous rule is discarded and an absent
`category`/`service` key is treated as unset. -/
theorem context_reset_each_generate_witness :
    extractContext ⟨some "process_creation", some "linux", some "auditd", some "OldTable"⟩
        (some ⟨none, some "windows", none⟩) =
      ⟨none, some "windows", none, none⟩ :=
  (context_reset_each_generate
    ⟨some "process_creation", some "linux", some "auditd", some "OldTable"⟩
    ⟨none, none, none, none⟩
    (some ⟨none, some "windows", none⟩)).2.2.2 ⟨none, some "windows", none⟩ rfl

/-- C9: `generateAggregation` returns Python `None` for every aggregation
clause — aggregations contribute nothing and never raise. -/
theorem aggregation_always_returns_none (agg : Aggregation) :
    generateAggregation agg = none := rfl

/-- C10: a scalar `EventID` condition whose (product, service, value)
combination matches none of the table-selection cases raises no error and is
delegated to the parent renderer unchanged — even though `EventID` has no
entry in the field mapping table. -/
theorem eventid_unmatched_delegates (ctx : Ctx) (v : MVal)
    (h : eventIDTableSelection ctx.product ctx.service v = none) :
    fieldMappings.lookup "EventID" = none ∧
    generateMapItemNode fieldMappings ctx ("EventID", .single v) =
      .ok (ctx, some (superGenerateMapItemNode "EventID" v)) := by
  refine ⟨lookup_eventID_none, ?_⟩
  simp [generateMapItemNode, genLeaf, h]

/-- C10 witness: the string value `"1"` on a windows/sysmon rule matches no
case (the cases compare against the int 1), so the node is delegated. -/
theorem eventid_unmatched_delegates_witness :
    fieldMappings.lookup "EventID" = none ∧
    generateMapItemNode fieldMappings ⟨none, some "windows", some "sysmon", none⟩
        ("EventID", .single (.str "1")) =
      .ok (⟨none, some "windows", some "sysmon", none⟩,
        some (superGenerateMapItemNode "EventID" (.str "1"))) :=
  eventid_unmatched_delegates ⟨none, some "windows", some "sysmon", none⟩
    (.str "1") (by decide)

end CarbonBlack
